import Mathlib

/-!
Shallow embedding of `src/lib/connection.js` (node-apn `Connection`):
the transmission cache, the outbound buffer, error-frame replay, the
notification wire encoding, and the send path.

Buffers are `List Nat` (byte values); JS `undefined`-able fields are
`Option`; the mutable `Connection` object is an explicit record threaded
through each operation; side effects (error-callback invocations, socket
writes) are returned as explicit lists of events.
-/

/-- A notification as `sendNotification` consumes it:
`notification.device.token` (possibly undefined), the serialized payload
bytes (`JSON.stringify(notification)` in the chosen encoding),
`notification.expiry`, and the `_uid` field assigned at send time. -/
structure Notification where
  token : Option (List Nat)
  payload : List Nat
  expiry : Nat
  uid : Option Nat
deriving Repr, DecidableEq

/-- The mutable state of a `Connection` instance relevant to the claims:
options (`enhanced`, `errorCallback` present or not, `cacheLength`) and the
fields set in the constructor (`currentId`, `cachedNotifications`,
`notificationBuffer`), plus the connection-lifecycle handles
(`socket`, `deferredConnection`, `connectionTimeout`) reduced to presence
flags. -/
structure Connection where
  enhanced : Bool
  hasErrorCallback : Bool
  cacheLength : Nat
  currentId : Nat
  cachedNotifications : List Notification
  notificationBuffer : List Notification
  socketPresent : Bool
  deferredConnection : Bool
  connectionTimeout : Bool
deriving Repr, DecidableEq

/-- Observable state of the TLS socket consulted by the send path:
`this.socket.socket.bufferSize` and `this.socket.writable`. -/
structure Socket where
  bufferSize : Nat
  writable : Bool
deriving Repr, DecidableEq

/-- Modelled from the spec: the `errors` module (`src/lib/errors.js`,
absent from this snapshot) whose entries `connection.js` looks up as
`Errors['missingDeviceToken']`, `Errors['invalidPayloadSize']` and
`Errors['none']`. The values are the gateway status codes the spec's
wire protocol carries (`statusCode:u8`), with `Errors_none` the generic
"unknown / cache insufficient" code. Only the names, never the values,
decide any claim below. -/
def Errors_missingDeviceToken : Nat := 2

/-- `Errors['invalidPayloadSize']` (see `Errors_missingDeviceToken`). -/
def Errors_invalidPayloadSize : Nat := 7

/-- `Errors['none']`: the generic code raised when no cached notification
matches an error frame (see `Errors_missingDeviceToken`). -/
def Errors_none : Nat := 255

/-- `Connection.prototype.bufferNotification`: push onto the outbound
buffer. -/
def bufferNotification (c : Connection) (n : Notification) : Connection :=
  { c with notificationBuffer := c.notificationBuffer ++ [n] }

/-- `Connection.prototype.cacheNotification`: push onto the transmission
cache; if the length now exceeds `options.cacheLength`, shift off the
oldest entry. -/
def cacheNotification (c : Connection) (n : Notification) : Connection :=
  let cached := c.cachedNotifications ++ [n]
  if cached.length > c.cacheLength then
    { c with cachedNotifications := cached.tail }
  else
    { c with cachedNotifications := cached }

/-- `Connection.prototype.raiseError`: invoke `options.errorCallback` with
`(errorCode, notification)` when a callback function is configured. The
result is the list of callback invocations this call performs. -/
def raiseError (c : Connection) (errorCode : Nat) (n : Option Notification) :
    List (Nat × Option Notification) :=
  if c.hasErrorCallback then [(errorCode, n)] else []

/-- The identifier-assignment step in `sendNotification`:
`notification._uid = this.currentId++; if (this.currentId > 0xffffffff)
{ this.currentId = 0; }`. Returns the uid given to the notification and
the new `currentId`. -/
def assignId (currentId : Nat) : Nat × Nat :=
  let uid := currentId
  let next := currentId + 1
  (uid, if next > 0xffffffff then 0 else next)

/-- `currentId` before the k-th successful send, starting from the
constructor's `currentId = 0`; equals the uid assigned to the k-th
notification. -/
def idSeq : Nat → Nat
  | 0 => 0
  | k + 1 => (assignId (idSeq k)).2

/-- `buf.writeUInt32BE(v, pos)` byte image: 4 bytes, big-endian. -/
def u32be (v : Nat) : List Nat :=
  [v / 2 ^ 24 % 256, v / 2 ^ 16 % 256, v / 2 ^ 8 % 256, v % 256]

/-- `buf.writeUInt16BE(v, pos)` byte image: 2 bytes, big-endian. -/
def u16be (v : Nat) : List Nat :=
  [v / 2 ^ 8 % 256, v % 256]

/-- `data.readUInt32BE(pos)`: big-endian 32-bit read at `pos`. -/
def readUInt32BE (data : List Nat) (pos : Nat) : Nat :=
  data.getD pos 0 * 2 ^ 24 + data.getD (pos + 1) 0 * 2 ^ 16 +
    data.getD (pos + 2) 0 * 2 ^ 8 + data.getD (pos + 3) 0

/-- Positional write into a pre-allocated buffer, as Node's `Buffer`
write/copy calls do: replace the bytes at `[pos, pos + bytes.length)`.
Every write in `sendNotification` is within the allocated size. -/
def bufWrite (buf : List Nat) (pos : Nat) (bytes : List Nat) : List Nat :=
  buf.take pos ++ bytes ++ buf.drop (pos + bytes.length)

/-- The enhanced-variant frame built in `sendNotification`: allocate
`1 + 4 + 4 + 2 + token.length + 2 + messageLength` bytes, then write
command byte `1`, identifier, expiry, token length, token, payload
length, payload at the successive positions the running `position`
variable takes. -/
def encodeEnhanced (uid expiry : Nat) (token payload : List Nat) : List Nat :=
  let size := 1 + 4 + 4 + 2 + token.length + 2 + payload.length
  let data := List.replicate size 0
  let data := bufWrite data 0 [1]
  let data := bufWrite data 1 (u32be uid)
  let data := bufWrite data 5 (u32be expiry)
  let data := bufWrite data 9 (u16be token.length)
  let data := bufWrite data 11 token
  let data := bufWrite data (11 + token.length) (u16be payload.length)
  bufWrite data (13 + token.length) payload

/-- The simple-variant frame built in `sendNotification`: allocate
`1 + 2 + token.length + 2 + messageLength` bytes, write command byte `0`,
token length, token, payload length, payload. -/
def encodeSimple (token payload : List Nat) : List Nat :=
  let size := 1 + 2 + token.length + 2 + payload.length
  let data := List.replicate size 0
  let data := bufWrite data 0 [0]
  let data := bufWrite data 1 (u16be token.length)
  let data := bufWrite data 3 token
  let data := bufWrite data (3 + token.length) (u16be payload.length)
  bufWrite data (5 + token.length) payload

/-- Effects of one invocation of the send path (or of
`handleTransmissionError`): the updated connection, the error-callback
invocations made, and the byte frames written to the socket. -/
structure SendResult where
  conn : Connection
  calls : List (Nat × Option Notification)
  written : List (List Nat)
deriving Repr, DecidableEq

/-- The body of the `connect().then(...)` callback in
`Connection.prototype.sendNotification`, for an established connection:
buffer on backpressure; otherwise validate token and payload size,
assign `_uid`, encode the frame for the configured variant (caching the
notification in the enhanced variant), and write it. -/
def sendNotificationConnected (c : Connection) (sock : Socket) (n : Notification) :
    SendResult :=
  if sock.bufferSize ≠ 0 ∨ sock.writable = false then
    { conn := bufferNotification c n, calls := [], written := [] }
  else
    match n.token with
    | none =>
        { conn := c, calls := raiseError c Errors_missingDeviceToken (some n),
          written := [] }
    | some token =>
        let messageLength := n.payload.length
        if messageLength > 255 then
          { conn := c, calls := raiseError c Errors_invalidPayloadSize (some n),
            written := [] }
        else
          let uid := (assignId c.currentId).1
          let c' := { c with currentId := (assignId c.currentId).2 }
          let n' := { n with uid := some uid }
          if c'.enhanced then
            let data := encodeEnhanced uid n.expiry token n.payload
            { conn := cacheNotification c' n', calls := [], written := [data] }
          else
            let data := encodeSimple token n.payload
            { conn := c', calls := [], written := [data] }

/-- `Connection.prototype.sendNotification` as called by the application:
the body is the single statement `this.connect().then(...).fail(...);`
with no `return`, so the call evaluates to `undefined`. The second
component is the JS return value (`none` = `undefined`); the first is
the effect of the `then` callback once the connection is up. -/
def sendNotification (c : Connection) (sock : Socket) (n : Notification) :
    SendResult × Option Unit :=
  (sendNotificationConnected c sock n, none)

/-- `Connection.prototype.socketDrained`: return early when a socket
exists and is still backpressured; otherwise shift the head of the
outbound buffer (if any) and resend it through `sendNotification`. -/
def socketDrained (c : Connection) (sock : Socket) : SendResult :=
  if c.socketPresent ∧ (sock.bufferSize ≠ 0 ∨ sock.writable = false) then
    { conn := c, calls := [], written := [] }
  else
    match c.notificationBuffer with
    | [] => { conn := c, calls := [], written := [] }
    | n :: rest =>
        (sendNotification { c with notificationBuffer := rest } sock n).1

/-- The scan loop in `handleTransmissionError`: shift cached
notifications until one with `_uid == identifier` is found or the cache
is exhausted. Returns `(temporaryCache, found, remaining)`: the entries
shifted before the match, the matching entry if any, and what is still
in the cache after the loop. -/
def scanCache (cache : List Notification) (identifier : Nat) :
    List Notification × Option Notification × List Notification :=
  match cache with
  | [] => ([], none, [])
  | n :: rest =>
      if n.uid = some identifier then ([], some n, rest)
      else
        let r := scanCache rest identifier
        (n :: r.1, r.2.1, r.2.2)

/-- Result of `handleTransmissionError`: updated connection, callback
invocations, and whether `destroyConnection` was called. -/
structure ErrorHandlerResult where
  conn : Connection
  calls : List (Nat × Option Notification)
  destroyed : Bool
deriving Repr, DecidableEq

/-- `Connection.prototype.handleTransmissionError` on a `data` event:
only frames whose first byte is 8 are handled, and only in the enhanced
variant. Read `errorCode = data[1]` and `identifier = data.readUInt32BE(2)`,
scan the cache for the identifier; on a match drop the earlier entries
and raise `(errorCode, notification)`, otherwise restore the whole cache
and raise `(Errors.none, null)`; then move every remaining cached entry
to the outbound buffer in order and destroy the connection. -/
def handleTransmissionError (c : Connection) (data : List Nat) :
    ErrorHandlerResult :=
  if data.getD 0 0 = 8 then
    if c.enhanced = false then
      { conn := c, calls := [], destroyed := false }
    else
      let errorCode := data.getD 1 0
      let identifier := readUInt32BE data 2
      let scanned := scanCache c.cachedNotifications identifier
      let afterMatch :=
        match scanned.2.1 with
        | some notification =>
            ({ c with cachedNotifications := scanned.2.2 },
             raiseError c errorCode (some notification))
        | none =>
            ({ c with cachedNotifications := scanned.1 },
             raiseError c Errors_none none)
      let c' := afterMatch.1
      { conn := { c' with
                    notificationBuffer :=
                      c'.notificationBuffer ++ c'.cachedNotifications,
                    cachedNotifications := [] },
        calls := afterMatch.2,
        destroyed := true }
  else
    { conn := c, calls := [], destroyed := false }

/-- `Connection.prototype.restartConnection`, bound to the socket's
`end` and `close` events: drop the socket handle and the pending
deferred connection, clear the connection timeout, and call `connect()`
again exactly when the outbound buffer is non-empty. The Boolean result
records whether `connect()` was invoked (which re-creates the deferred
connection, i.e. starts a new attempt). -/
def restartConnection (c : Connection) : Connection × Bool :=
  let c' := { c with socketPresent := false, deferredConnection := false,
                     connectionTimeout := false }
  if c'.notificationBuffer.length ≠ 0 then
    ({ c' with deferredConnection := true }, true)
  else
    (c', false)

/-! ### Helper lemmas -/

theorem cacheNotification_cacheLength (c : Connection) (n : Notification) :
    (cacheNotification c n).cacheLength = c.cacheLength := by
  simp only [cacheNotification]
  split <;> rfl

theorem cacheNotification_currentId (c : Connection) (n : Notification) :
    (cacheNotification c n).currentId = c.currentId := by
  simp only [cacheNotification]
  split <;> rfl

theorem cacheNotification_length_le (c : Connection) (n : Notification)
    (h : c.cachedNotifications.length ≤ c.cacheLength) :
    (cacheNotification c n).cachedNotifications.length ≤ c.cacheLength := by
  simp only [cacheNotification]
  split
  · simp_all
  · simp_all

theorem idSeq_eq_mod (k : Nat) : idSeq k = k % 2 ^ 32 := by
  have h32 : (2 : Nat) ^ 32 = 4294967296 := by norm_num
  induction k with
  | zero => simp [idSeq]
  | succ k ih =>
      simp only [idSeq, assignId, ih, h32]
      split <;> omega

/-! ### Fixtures: concrete states used by witnesses and counterexamples -/

/-- A 4-byte device token. -/
def tokenW : List Nat := [222, 173, 190, 239]

/-- A small valid notification (2-byte payload). -/
def notifW : Notification :=
  { token := some tokenW, payload := [123, 125], expiry := 0, uid := none }

/-- A notification with no device token. -/
def notifNoToken : Notification :=
  { token := none, payload := [123, 125], expiry := 0, uid := none }

/-- A small valid notification carrying an assigned `_uid`, as entries of
the Transmission Cache do. -/
def notifU (k : Nat) : Notification :=
  { token := some tokenW, payload := [123, 125], expiry := 0, uid := some k }

/-- A connection in its constructed state (enhanced, callback configured,
default `cacheLength`), with a live socket and deferred connection. -/
def connW : Connection :=
  { enhanced := true, hasErrorCallback := true, cacheLength := 100,
    currentId := 0, cachedNotifications := [], notificationBuffer := [],
    socketPresent := true, deferredConnection := true,
    connectionTimeout := false }

/-- A drained, writable socket. -/
def sockW : Socket := { bufferSize := 0, writable := true }

/-- A backpressured socket (`bufferSize` non-zero). -/
def sockBp : Socket := { bufferSize := 1, writable := true }

/-! ### Claims -/

/-- C4: the Transmission Cache never holds more than `cacheLength`
entries: `cacheNotification` preserves the bound
`|cachedNotifications| ≤ cacheLength`, appending to a full cache evicts
exactly the oldest entry, and any sequence of appends starting from a
state within the bound stays within the bound. -/
theorem claim_C4 (c : Connection) (n : Notification)
    (h : c.cachedNotifications.length ≤ c.cacheLength) :
    (cacheNotification c n).cachedNotifications.length ≤ c.cacheLength ∧
    (c.cachedNotifications.length = c.cacheLength →
      (cacheNotification c n).cachedNotifications
        = (c.cachedNotifications ++ [n]).tail) ∧
    (∀ ns : List Notification,
      (ns.foldl cacheNotification c).cachedNotifications.length ≤ c.cacheLength) := by
  refine ⟨cacheNotification_length_le c n h, ?_, ?_⟩
  · intro hfull
    simp only [cacheNotification]
    split
    · rfl
    · simp_all
  · intro ns
    induction ns generalizing c with
    | nil => simpa using h
    | cons m ms ih =>
        have hlen := cacheNotification_length_le c m h
        have hcap := cacheNotification_cacheLength c m
        simpa [List.foldl_cons, hcap] using ih (cacheNotification c m) (hcap ▸ hlen)

/-- Witness for C4 at a concrete full cache of capacity 2. -/
theorem claim_C4_witness :
    (cacheNotification
        { connW with cacheLength := 2,
                     cachedNotifications := [notifW, notifNoToken] }
        notifW).cachedNotifications.length ≤ 2 ∧
    ((cacheNotification
        { connW with cacheLength := 2,
                     cachedNotifications := [notifW, notifNoToken] }
        notifW).cachedNotifications
      = ([notifW, notifNoToken] ++ [notifW]).tail) := by
  have h := claim_C4
    { connW with cacheLength := 2, cachedNotifications := [notifW, notifNoToken] }
    notifW (by decide)
  exact ⟨h.1, h.2.1 (by decide)⟩

/-- C5: identifier assignment starts at 0, increases by 1 modulo `2^32`,
every assigned identifier fits in 32 bits, after `2^32 - 1` the next
identifier is 0, no two assignments within one wrap cycle collide, and a
successful (validated, non-backpressured) send advances `currentId` by
exactly the `assignId` step. -/
theorem claim_C5 :
    (∀ k, idSeq k = k % 2 ^ 32) ∧
    (∀ k, idSeq k < 2 ^ 32) ∧
    (∀ k, idSeq (k + 1) = (idSeq k + 1) % 2 ^ 32) ∧
    (assignId (2 ^ 32 - 1)).2 = 0 ∧
    (∀ i j, i < j → j < i + 2 ^ 32 → idSeq i ≠ idSeq j) ∧
    (∀ (c : Connection) (sock : Socket) (n : Notification) (tok : List Nat),
       sock.bufferSize = 0 → sock.writable = true → n.token = some tok →
       n.payload.length ≤ 255 →
       (sendNotificationConnected c sock n).conn.currentId
         = (assignId c.currentId).2) := by
  have h32 : (2 : Nat) ^ 32 = 4294967296 := by norm_num
  refine ⟨idSeq_eq_mod, ?_, ?_, ?_, ?_, ?_⟩
  · intro k
    rw [idSeq_eq_mod]
    exact Nat.mod_lt _ (by norm_num)
  · intro k
    rw [idSeq_eq_mod, idSeq_eq_mod]
    omega
  · simp [assignId]
  · intro i j hij hj
    rw [idSeq_eq_mod, idSeq_eq_mod]
    intro heq
    omega
  · intro c sock n tok hbs hw htok hlen
    simp only [sendNotificationConnected, hbs, hw, htok]
    have : ¬ n.payload.length > 255 := by omega
    simp only [this, if_false, ne_eq, not_true_eq_false, false_or,
      Bool.true_eq_false, or_self, if_false, reduceIte]
    split
    · exact cacheNotification_currentId _ _
    · rfl

/-- Witness for C5: no collision between the 1st and 5th identifiers, and
a concrete successful send advances `currentId` from 0 to 1. -/
theorem claim_C5_witness :
    idSeq 1 ≠ idSeq 5 ∧
    (sendNotificationConnected connW sockW notifW).conn.currentId
      = (assignId connW.currentId).2 := by
  refine ⟨claim_C5.2.2.2.2.1 1 5 (by norm_num) (by norm_num), ?_⟩
  exact claim_C5.2.2.2.2.2 connW sockW notifW tokenW rfl rfl rfl (by decide)

/-- C9: `restartConnection` (bound to the transport's `end`/`close`
events) releases the socket handle and cancels the idle timer; it starts
a new connection attempt exactly when the Outbound Buffer is non-empty,
and with an empty buffer the instance stays disconnected with no pending
connection attempt. -/
theorem claim_C9 (c : Connection) :
    ((restartConnection c).1.socketPresent = false ∧
     (restartConnection c).1.connectionTimeout = false ∧
     (restartConnection c).1.notificationBuffer = c.notificationBuffer) ∧
    (c.notificationBuffer ≠ [] →
      (restartConnection c).2 = true ∧
      (restartConnection c).1.deferredConnection = true) ∧
    (c.notificationBuffer = [] →
      (restartConnection c).2 = false ∧
      (restartConnection c).1.deferredConnection = false) := by
  by_cases h : c.notificationBuffer = [] <;>
    simp [restartConnection, h]

/-- Witness for C9: a teardown with one buffered notification starts a
reconnect; a teardown with an empty buffer does not. -/
theorem claim_C9_witness :
    ((restartConnection { connW with notificationBuffer := [notifW] }).2 = true ∧
     (restartConnection { connW with notificationBuffer := [notifW] }).1.deferredConnection = true) ∧
    ((restartConnection connW).2 = false ∧
     (restartConnection connW).1.deferredConnection = false) :=
  ⟨(claim_C9 { connW with notificationBuffer := [notifW] }).2.1 (by decide),
   (claim_C9 connW).2.2 (by decide)⟩

/-- C10: under backpressure (`bufferSize ≠ 0` or socket not writable)
`sendNotification` appends the notification to the Outbound Buffer
before any validation — even with no token or an oversized payload — and
raises no error and writes nothing; the skipped validation then runs on
the drain-triggered resend, where a buffered token-less head is reported
with the missing-token error. -/
theorem claim_C10 (c : Connection) (sock : Socket) (n : Notification)
    (hbp : sock.bufferSize ≠ 0 ∨ sock.writable = false) :
    ((sendNotificationConnected c sock n).conn.notificationBuffer
        = c.notificationBuffer ++ [n] ∧
     (sendNotificationConnected c sock n).calls = [] ∧
     (sendNotificationConnected c sock n).written = [] ∧
     (sendNotificationConnected c sock n).conn.cachedNotifications
        = c.cachedNotifications) ∧
    (∀ (c2 : Connection) (sock2 : Socket) (m : Notification)
        (rest : List Notification),
       c2.notificationBuffer = m :: rest → m.token = none →
       c2.hasErrorCallback = true →
       sock2.bufferSize = 0 → sock2.writable = true →
       (socketDrained c2 sock2).calls
         = [(Errors_missingDeviceToken, some m)]) := by
  constructor
  · simp [sendNotificationConnected, hbp, bufferNotification]
  · intro c2 sock2 m rest hbuf htok hcb hbs hw
    simp [socketDrained, hbs, hw, hbuf, sendNotification,
      sendNotificationConnected, htok, raiseError, hcb]

/-- Witness for C10: a token-less notification submitted against a
backpressured socket is buffered with no error; once drained it is
resent and the missing-token error is raised. -/
theorem claim_C10_witness :
    ((sendNotificationConnected connW sockBp notifNoToken).conn.notificationBuffer
        = connW.notificationBuffer ++ [notifNoToken] ∧
     (sendNotificationConnected connW sockBp notifNoToken).calls = [] ∧
     (sendNotificationConnected connW sockBp notifNoToken).written = [] ∧
     (sendNotificationConnected connW sockBp notifNoToken).conn.cachedNotifications
        = connW.cachedNotifications) ∧
    (socketDrained { connW with notificationBuffer := [notifNoToken] } sockW).calls
      = [(Errors_missingDeviceToken, some notifNoToken)] := by
  have h := claim_C10 connW sockBp notifNoToken (by decide)
  exact ⟨h.1, h.2 { connW with notificationBuffer := [notifNoToken] }
    sockW notifNoToken [] rfl rfl rfl rfl rfl⟩

theorem u32be_length (v : Nat) : (u32be v).length = 4 := rfl

theorem u16be_length (v : Nat) : (u16be v).length = 2 := rfl

theorem readUInt32BE_u32be (b0 b1 id : Nat) (h : id < 2 ^ 32) :
    readUInt32BE (b0 :: b1 :: u32be id) 2 = id := by
  simp only [readUInt32BE, u32be, List.getD_cons_succ, List.getD_cons_zero]
  omega

theorem scanCache_found (pre post : List Notification) (m : Notification)
    (id : Nat) (hm : m.uid = some id)
    (hpre : ∀ x ∈ pre, x.uid ≠ some id) :
    scanCache (pre ++ m :: post) id = (pre, some m, post) := by
  induction pre with
  | nil => simp [scanCache, hm]
  | cons a t ih =>
      have ha : a.uid ≠ some id := hpre a (List.mem_cons_self a t)
      have ht : ∀ x ∈ t, x.uid ≠ some id :=
        fun x hx => hpre x (List.mem_cons_of_mem a hx)
      simp [scanCache, ha, ih ht]

theorem scanCache_not_found (cache : List Notification) (id : Nat)
    (h : ∀ x ∈ cache, x.uid ≠ some id) :
    scanCache cache id = (cache, none, []) := by
  induction cache with
  | nil => simp [scanCache]
  | cons a t ih =>
      have ha : a.uid ≠ some id := h a (List.mem_cons_self a t)
      simp [scanCache, ha, ih (fun x hx => h x (List.mem_cons_of_mem a hx))]

/-- C1: an error frame whose identifier matches a cached entry discards
every older entry (no callback for them, and they reach neither the
buffer nor the cache), reports exactly one error-callback invocation
with the frame's status code and the matching notification, appends the
strictly newer entries to the Outbound Buffer in their original order,
leaves the Transmission Cache empty, and tears the connection down. -/
theorem claim_C1 (c : Connection) (pre post : List Notification)
    (m : Notification) (status id : Nat)
    (hid : id < 2 ^ 32) (henh : c.enhanced = true)
    (hcb : c.hasErrorCallback = true)
    (hc : c.cachedNotifications = pre ++ m :: post)
    (hm : m.uid = some id)
    (hpre : ∀ x ∈ pre, x.uid ≠ some id) :
    (handleTransmissionError c (8 :: status :: u32be id)).calls
        = [(status, some m)] ∧
    (handleTransmissionError c (8 :: status :: u32be id)).conn.notificationBuffer
        = c.notificationBuffer ++ post ∧
    (handleTransmissionError c (8 :: status :: u32be id)).conn.cachedNotifications
        = [] ∧
    (handleTransmissionError c (8 :: status :: u32be id)).destroyed = true := by
  have hread : readUInt32BE (8 :: status :: u32be id) 2 = id :=
    readUInt32BE_u32be 8 status id hid
  simp [handleTransmissionError, henh, hread, hc,
    scanCache_found pre post m id hm hpre, raiseError, hcb]

/-- Witness for C1: the spec's example — cache `[5,6,7,8]`, error frame
for identifier 7 with status 4: one callback `(4, notification 7)`,
notification 8 re-queued, cache empty. -/
theorem claim_C1_witness :
    (handleTransmissionError
        { connW with cachedNotifications :=
            [notifU 5, notifU 6, notifU 7, notifU 8] }
        (8 :: 4 :: u32be 7)).calls = [(4, some (notifU 7))] ∧
    (handleTransmissionError
        { connW with cachedNotifications :=
            [notifU 5, notifU 6, notifU 7, notifU 8] }
        (8 :: 4 :: u32be 7)).conn.notificationBuffer = [notifU 8] ∧
    (handleTransmissionError
        { connW with cachedNotifications :=
            [notifU 5, notifU 6, notifU 7, notifU 8] }
        (8 :: 4 :: u32be 7)).conn.cachedNotifications = [] ∧
    (handleTransmissionError
        { connW with cachedNotifications :=
            [notifU 5, notifU 6, notifU 7, notifU 8] }
        (8 :: 4 :: u32be 7)).destroyed = true :=
  claim_C1
    { connW with cachedNotifications := [notifU 5, notifU 6, notifU 7, notifU 8] }
    [notifU 5, notifU 6] [notifU 8] (notifU 7) 4 7
    (by norm_num) rfl rfl rfl rfl (by decide)

/-- C2: an error frame whose identifier matches no cached entry moves the
whole cache, in original order, to the Outbound Buffer, invokes the error
callback exactly once with the generic code and a `null` notification,
leaves the cache empty, and tears the connection down. -/
theorem claim_C2 (c : Connection) (status id : Nat)
    (hid : id < 2 ^ 32) (henh : c.enhanced = true)
    (hcb : c.hasErrorCallback = true)
    (hnone : ∀ x ∈ c.cachedNotifications, x.uid ≠ some id) :
    (handleTransmissionError c (8 :: status :: u32be id)).calls
        = [(Errors_none, none)] ∧
    (handleTransmissionError c (8 :: status :: u32be id)).conn.notificationBuffer
        = c.notificationBuffer ++ c.cachedNotifications ∧
    (handleTransmissionError c (8 :: status :: u32be id)).conn.cachedNotifications
        = [] ∧
    (handleTransmissionError c (8 :: status :: u32be id)).destroyed = true := by
  have hread : readUInt32BE (8 :: status :: u32be id) 2 = id :=
    readUInt32BE_u32be 8 status id hid
  simp [handleTransmissionError, henh, hread,
    scanCache_not_found c.cachedNotifications id hnone, raiseError, hcb]

/-- Witness for C2: the spec's example — cache `[5,6,7,8]`, error frame
for absent identifier 99: one generic callback with no notification, all
four entries moved to the Outbound Buffer, cache empty. -/
theorem claim_C2_witness :
    (handleTransmissionError
        { connW with cachedNotifications :=
            [notifU 5, notifU 6, notifU 7, notifU 8] }
        (8 :: 4 :: u32be 99)).calls = [(Errors_none, none)] ∧
    (handleTransmissionError
        { connW with cachedNotifications :=
            [notifU 5, notifU 6, notifU 7, notifU 8] }
        (8 :: 4 :: u32be 99)).conn.notificationBuffer
        = [notifU 5, notifU 6, notifU 7, notifU 8] ∧
    (handleTransmissionError
        { connW with cachedNotifications :=
            [notifU 5, notifU 6, notifU 7, notifU 8] }
        (8 :: 4 :: u32be 99)).conn.cachedNotifications = [] ∧
    (handleTransmissionError
        { connW with cachedNotifications :=
            [notifU 5, notifU 6, notifU 7, notifU 8] }
        (8 :: 4 :: u32be 99)).destroyed = true :=
  claim_C2
    { connW with cachedNotifications := [notifU 5, notifU 6, notifU 7, notifU 8] }
    4 99 (by norm_num) rfl rfl (by decide)

theorem bufWrite_at (pre rest bytes : List Nat) :
    bufWrite (pre ++ rest) pre.length bytes
      = pre ++ bytes ++ rest.drop bytes.length := by
  induction pre with
  | nil => simp [bufWrite]
  | cons a t ih =>
      simp only [bufWrite, List.cons_append, List.length_cons,
        List.take_succ_cons] at *
      have hdrop : t.length + 1 + bytes.length = (t.length + bytes.length) + 1 := by
        omega
      simp only [hdrop, List.drop_succ_cons]
      simp [ih]

theorem bufWrite_step (A bytes : List Nat) (k pos k' : Nat)
    (hpos : pos = A.length) (hk : k = bytes.length + k') :
    bufWrite (A ++ List.replicate k 0) pos bytes
      = (A ++ bytes) ++ List.replicate k' 0 := by
  subst hpos hk
  rw [bufWrite_at, List.drop_replicate, Nat.add_sub_cancel_left,
    List.append_assoc]

theorem encodeEnhanced_eq (uid expiry : Nat) (token payload : List Nat) :
    encodeEnhanced uid expiry token payload
      = 1 :: (u32be uid ++ u32be expiry ++ u16be token.length ++ token
          ++ u16be payload.length ++ payload) := by
  simp only [encodeEnhanced]
  rw [show List.replicate (1 + 4 + 4 + 2 + token.length + 2 + payload.length) 0
        = [] ++ List.replicate (1 + 4 + 4 + 2 + token.length + 2 + payload.length) 0
      from rfl]
  rw [bufWrite_step [] [1]
        (1 + 4 + 4 + 2 + token.length + 2 + payload.length) 0
        (4 + 4 + 2 + token.length + 2 + payload.length)
        rfl (by simp only [List.length_cons, List.length_nil]; omega)]
  rw [bufWrite_step ([] ++ [1]) (u32be uid)
        (4 + 4 + 2 + token.length + 2 + payload.length) 1
        (4 + 2 + token.length + 2 + payload.length)
        (by simp only [List.length_append, List.length_cons, List.length_nil])
        (by rw [u32be_length]; omega)]
  rw [bufWrite_step (([] ++ [1]) ++ u32be uid) (u32be expiry)
        (4 + 2 + token.length + 2 + payload.length) 5
        (2 + token.length + 2 + payload.length)
        (by simp only [List.length_append, List.length_cons, List.length_nil,
              u32be_length])
        (by rw [u32be_length]; omega)]
  rw [bufWrite_step ((([] ++ [1]) ++ u32be uid) ++ u32be expiry)
        (u16be token.length)
        (2 + token.length + 2 + payload.length) 9
        (token.length + 2 + payload.length)
        (by simp only [List.length_append, List.length_cons, List.length_nil,
              u32be_length])
        (by rw [u16be_length]; omega)]
  rw [bufWrite_step (((([] ++ [1]) ++ u32be uid) ++ u32be expiry)
          ++ u16be token.length) token
        (token.length + 2 + payload.length) 11
        (2 + payload.length)
        (by simp only [List.length_append, List.length_cons, List.length_nil,
              u32be_length, u16be_length])
        (by omega)]
  rw [bufWrite_step ((((([] ++ [1]) ++ u32be uid) ++ u32be expiry)
          ++ u16be token.length) ++ token) (u16be payload.length)
        (2 + payload.length) (11 + token.length)
        payload.length
        (by simp only [List.length_append, List.length_cons, List.length_nil,
              u32be_length, u16be_length])
        (by rw [u16be_length])]
  rw [bufWrite_step (((((([] ++ [1]) ++ u32be uid) ++ u32be expiry)
          ++ u16be token.length) ++ token) ++ u16be payload.length) payload
        payload.length (13 + token.length) 0
        (by simp only [List.length_append, List.length_cons, List.length_nil,
              u32be_length, u16be_length]; omega)
        (by omega)]
  simp

theorem encodeSimple_eq (token payload : List Nat) :
    encodeSimple token payload
      = 0 :: (u16be token.length ++ token ++ u16be payload.length ++ payload) := by
  simp only [encodeSimple]
  rw [show List.replicate (1 + 2 + token.length + 2 + payload.length) 0
        = [] ++ List.replicate (1 + 2 + token.length + 2 + payload.length) 0
      from rfl]
  rw [bufWrite_step [] [0]
        (1 + 2 + token.length + 2 + payload.length) 0
        (2 + token.length + 2 + payload.length)
        rfl (by simp only [List.length_cons, List.length_nil]; omega)]
  rw [bufWrite_step ([] ++ [0]) (u16be token.length)
        (2 + token.length + 2 + payload.length) 1
        (token.length + 2 + payload.length)
        (by simp only [List.length_append, List.length_cons, List.length_nil])
        (by rw [u16be_length]; omega)]
  rw [bufWrite_step (([] ++ [0]) ++ u16be token.length) token
        (token.length + 2 + payload.length) 3
        (2 + payload.length)
        (by simp only [List.length_append, List.length_cons, List.length_nil,
              u16be_length])
        (by omega)]
  rw [bufWrite_step ((([] ++ [0]) ++ u16be token.length) ++ token)
        (u16be payload.length)
        (2 + payload.length) (3 + token.length)
        payload.length
        (by simp only [List.length_append, List.length_cons, List.length_nil,
              u16be_length])
        (by rw [u16be_length])]
  rw [bufWrite_step (((([] ++ [0]) ++ u16be token.length) ++ token)
          ++ u16be payload.length) payload
        payload.length (5 + token.length) 0
        (by simp only [List.length_append, List.length_cons, List.length_nil,
              u16be_length]; omega)
        (by omega)]
  simp

/-- A notification with a token and an encoded payload of exactly 255
bytes. -/
def notif255 : Notification :=
  { token := some tokenW, payload := List.replicate 255 97, expiry := 0,
    uid := none }

/-- A notification with a token and an encoded payload of 256 bytes. -/
def notifBig : Notification :=
  { token := some tokenW, payload := List.replicate 256 97, expiry := 0,
    uid := none }

/-- C6: the enhanced frame is exactly
`0x01 ∥ identifier(u32BE) ∥ expiry(u32BE) ∥ tokenLen(u16BE) ∥ token ∥
payloadLen(u16BE) ∥ payload`, of total length
`13 + |token| + |payload|`; the simple frame is exactly
`0x00 ∥ tokenLen(u16BE) ∥ token ∥ payloadLen(u16BE) ∥ payload`, of total
length `5 + |token| + |payload|`. -/
theorem claim_C6 (uid expiry : Nat) (token payload : List Nat) :
    encodeEnhanced uid expiry token payload
      = 1 :: (u32be uid ++ u32be expiry ++ u16be token.length ++ token
          ++ u16be payload.length ++ payload) ∧
    (encodeEnhanced uid expiry token payload).length
      = 13 + token.length + payload.length ∧
    encodeSimple token payload
      = 0 :: (u16be token.length ++ token ++ u16be payload.length ++ payload) ∧
    (encodeSimple token payload).length
      = 5 + token.length + payload.length := by
  refine ⟨encodeEnhanced_eq uid expiry token payload, ?_,
    encodeSimple_eq token payload, ?_⟩
  · rw [encodeEnhanced_eq]
    simp only [List.length_cons, List.length_append, u32be_length, u16be_length]
    omega
  · rw [encodeSimple_eq]
    simp only [List.length_cons, List.length_append, u16be_length]
    omega

/-- Counterexample for C3 as stated: a notification with a token and a
256-byte payload submitted while the socket is backpressured raises no
`invalidPayloadSize` error at all — it is appended, unvalidated, to the
Outbound Buffer — contradicting "the send fails with the
PayloadTooLarge/invalidPayloadSize error". -/
theorem claim_C3_cex :
    notifBig.token.isSome = true ∧ notifBig.payload.length = 256 ∧
    (sendNotificationConnected connW sockBp notifBig).calls = [] ∧
    (sendNotificationConnected connW sockBp notifBig).written = [] ∧
    (sendNotificationConnected connW sockBp notifBig).conn.notificationBuffer
      = [notifBig] := by
  exact ⟨rfl, List.length_replicate 256 97, rfl, rfl, rfl⟩

/-- C3 (amended): for a notification with a token submitted while the
transport socket is writable with an empty buffer, a 255-byte payload is
sent with no error callback and the encoded frame written, and a payload
of 256 bytes or more raises `invalidPayloadSize` and the notification is
never encoded, cached, or written (the state is unchanged). -/
theorem claim_C3 (c : Connection) (sock : Socket) (n : Notification)
    (tok : List Nat)
    (htok : n.token = some tok) (hcb : c.hasErrorCallback = true)
    (hbs : sock.bufferSize = 0) (hw : sock.writable = true) :
    (n.payload.length = 255 →
      (sendNotificationConnected c sock n).calls = [] ∧
      (sendNotificationConnected c sock n).written
        = [if c.enhanced = true
           then encodeEnhanced c.currentId n.expiry tok n.payload
           else encodeSimple tok n.payload]) ∧
    (n.payload.length ≥ 256 →
      (sendNotificationConnected c sock n).calls
        = [(Errors_invalidPayloadSize, some n)] ∧
      (sendNotificationConnected c sock n).written = [] ∧
      (sendNotificationConnected c sock n).conn = c) := by
  constructor
  · intro h255
    have hng : ¬ n.payload.length > 255 := by omega
    by_cases he : c.enhanced = true <;>
      simp [sendNotificationConnected, hbs, hw, htok, hng, he, assignId]
  · intro hbig
    have hg : n.payload.length > 255 := by omega
    simp [sendNotificationConnected, hbs, hw, htok, hg, raiseError, hcb]

/-- Witness for C3 (amended) at a writable socket: a 255-byte payload is
written; a 256-byte payload raises `invalidPayloadSize` and leaves the
connection unchanged. -/
theorem claim_C3_witness :
    ((sendNotificationConnected connW sockW notif255).calls = [] ∧
     (sendNotificationConnected connW sockW notif255).written
       = [if connW.enhanced = true
          then encodeEnhanced connW.currentId notif255.expiry tokenW
                 notif255.payload
          else encodeSimple tokenW notif255.payload]) ∧
    ((sendNotificationConnected connW sockW notifBig).calls
       = [(Errors_invalidPayloadSize, some notifBig)] ∧
     (sendNotificationConnected connW sockW notifBig).written = [] ∧
     (sendNotificationConnected connW sockW notifBig).conn = connW) :=
  ⟨(claim_C3 connW sockW notif255 tokenW rfl rfl rfl rfl).1
     (List.length_replicate 255 97),
   (claim_C3 connW sockW notifBig tokenW rfl rfl rfl rfl).2
     (le_of_eq (List.length_replicate 256 97).symm)⟩

/-- Counterexample for C7 as stated: `sendNotification`'s body is the
single expression statement `this.connect().then(...).fail(...);` with no
`return`, so at a concrete input the call returns `undefined`, not a
promise. -/
theorem claim_C7_cex : (sendNotification connW sockW notifW).2.isSome = false :=
  rfl

/-- C7 (amended): `sendNotification` returns no value (`undefined`); the
notification's transmission is performed as a side effect of the
`connect().then(...)` callback, whose behaviour is that of
`sendNotificationConnected`, and completion of the write is not exposed
to the caller through a returned promise. -/
theorem claim_C7 (c : Connection) (sock : Socket) (n : Notification) :
    (sendNotification c sock n).2 = none ∧
    (sendNotification c sock n).1 = sendNotificationConnected c sock n :=
  ⟨rfl, rfl⟩

/-- Counterexample for C8 as stated: a notification with no token
submitted while the socket is backpressured yields no immediate failure
and mutates the Outbound Buffer — it is queued unvalidated —
contradicting "neither the Transmission Cache nor the Outbound Buffer is
mutated: the notification is never queued". -/
theorem claim_C8_cex :
    notifNoToken.token = none ∧
    (sendNotificationConnected connW sockBp notifNoToken).calls = [] ∧
    (sendNotificationConnected connW sockBp notifNoToken).conn.notificationBuffer
      = connW.notificationBuffer ++ [notifNoToken] :=
  ⟨rfl, rfl, rfl⟩

/-- C8 (amended): for a notification with no token submitted while the
transport socket is writable with an empty buffer, the send path raises
the missing-token error immediately and exactly once, writes nothing,
and leaves the connection state — cache and buffer included —
unchanged. -/
theorem claim_C8 (c : Connection) (sock : Socket) (n : Notification)
    (htok : n.token = none) (hcb : c.hasErrorCallback = true)
    (hbs : sock.bufferSize = 0) (hw : sock.writable = true) :
    (sendNotificationConnected c sock n).calls
      = [(Errors_missingDeviceToken, some n)] ∧
    (sendNotificationConnected c sock n).written = [] ∧
    (sendNotificationConnected c sock n).conn = c := by
  simp [sendNotificationConnected, hbs, hw, htok, raiseError, hcb]

/-- Witness for C8 (amended): the token-less notification on a writable
socket gets the missing-token error and nothing else happens. -/
theorem claim_C8_witness :
    (sendNotificationConnected connW sockW notifNoToken).calls
      = [(Errors_missingDeviceToken, some notifNoToken)] ∧
    (sendNotificationConnected connW sockW notifNoToken).written = [] ∧
    (sendNotificationConnected connW sockW notifNoToken).conn = connW :=
  claim_C8 connW sockW notifNoToken rfl rfl rfl rfl
